import Mathlib

/-!
Shallow embedding of the kml2gpx repository (KML coordinate extraction,
time interpolation, track assembly and argument validation) together with
theorems checking the specification claims.

Modelling conventions:
* Python floats and datetimes are modelled as exact rationals; a datetime
  is its timestamp, a timedelta is a rational duration.
* Python exceptions become an explicit error type: TypeError, KeyError,
  ValueError, ZeroDivisionError and AttributeError constructors mirror the
  exception classes raised by the source.  The spec maps TypeError /
  ValueError raised by parsing to FormatError, KeyError on a layer name to
  NotFoundError and ValueError raised by argument checks to
  ValidationError.
* An XML element tree is modelled by the fields the source actually reads:
  the root namespace map and the list of placemarks, each placemark with
  the text of its name, LineString/altitudeMode and LineString/coordinates
  nodes.  findtext returning None is Option.none; a findall hit whose
  element has empty text is modelled as some none for the coordinates
  node (lxml gives text = None there, and None.split raises
  AttributeError).
* File system and XML parsing are external collaborators: an input file is
  represented by its already-parsed root element, and file existence by a
  Boolean predicate passed to the validation functions.
-/

/-- Decidable equality for Except results, so that concrete runs of the
embedded functions can be checked computationally. -/
instance instDecEqExcept {ε α : Type} [DecidableEq ε] [DecidableEq α] :
    DecidableEq (Except ε α) := fun a b =>
  match a, b with
  | .error x, .error y =>
      if h : x = y then .isTrue (by rw [h])
      else .isFalse (fun hc => h (by cases hc; rfl))
  | .ok x, .ok y =>
      if h : x = y then .isTrue (by rw [h])
      else .isFalse (fun hc => h (by cases hc; rfl))
  | .error _, .ok _ => .isFalse (fun hc => by cases hc)
  | .ok _, .error _ => .isFalse (fun hc => by cases hc)

/-- Python exception kinds raised by the source code. -/
inductive PyError where
  | typeError (msg : String)
  | keyError (msg : String)
  | valueError (msg : String)
  | zeroDivisionError
  | attributeError (msg : String)
deriving DecidableEq, Repr

/-- The TrackPoint dataclass from beans.py / main.py: longitude, latitude,
altitude and an optional timestamp, all numeric fields as exact rationals. -/
structure TrackPoint where
  longitude : ℚ
  latitude : ℚ
  altitude : ℚ
  time : Option ℚ := none
deriving DecidableEq, Repr

/-- A placemark element, reduced to the three texts the source reads:
findtext("name"), findtext("LineString/altitudeMode") and the text of the
first findall("LineString/coordinates") node.  The outer Option of
coordinatesNode is node presence, the inner Option is the node text
(none for an empty element, where lxml yields text = None). -/
structure Placemark where
  name : Option String
  altitudeMode : Option String
  coordinatesNode : Option (Option String)
deriving DecidableEq, Repr

/-- The root element of a parsed XML document: its namespace-map entries
(mapping an optional namespace declaration key to a URI, as in lxml nsmap),
the key of the root tag (lxml prefix attribute) and the placemark children
scanned by findall("Placemark"). -/
structure KmlRoot where
  pfx : Option String
  nsmap : List (Option String × String)
  placemarks : List Placemark
deriving DecidableEq, Repr

/-- The KML 2.2 namespace URI the loader requires. -/
def KML_NS : String := "http://www.opengis.net/kml/2.2"

/-- Dictionary lookup kml.nsmap[kml.prefix]; none models the KeyError case. -/
def lookupNs : List (Option String × String) → Option String → Option String
  | [], _ => none
  | (k, v) :: rest, p => if k = p then some v else lookupNs rest p

/-- KmlParser.load after XML parsing: read the root namespace and require it
to equal the KML 2.2 URI.  A missing nsmap entry raises KeyError (Python
dict access); a different URI raises TypeError. -/
def loadRoot (root : KmlRoot) : Except PyError KmlRoot :=
  match lookupNs root.nsmap root.pfx with
  | none => .error (.keyError "nsmap")
  | some ns =>
      if ns ≠ KML_NS then .error (.typeError "Not a valid/supported KML file")
      else .ok root

/-- Character-level splitter: cuts the list at every separator character,
keeping empty pieces (acc is the current piece, reversed). -/
def splitChars (p : Char → Bool) : List Char → List Char → List (List Char)
  | acc, [] => [acc.reverse]
  | acc, c :: rest =>
      if p c then acc.reverse :: splitChars p [] rest
      else splitChars p (c :: acc) rest

/-- The ASCII whitespace set of the Python str.split(None) delimiter. -/
def isPySpace (c : Char) : Bool :=
  c = ' ' ∨ c = '\t' ∨ c = '\n' ∨ c = '\r' ∨ c = '\x0b' ∨ c = '\x0c'

/-- Python coords_list_raw.split(None): split on whitespace runs, which
never yields empty tokens, modelled as a character split with empty pieces
dropped.  The subsequent strip-and-skip of empty rows in the source loop is
a no-op after this split. -/
def splitWs (s : String) : List String :=
  ((splitChars isPySpace [] s.toList).map (fun cs => String.mk cs)).filter
    (fun t => t ≠ "")

/-- Python row.split(","): comma split keeping empty fields. -/
def splitComma (s : String) : List String :=
  (splitChars (fun c => c = ',') [] s.toList).map (fun cs => String.mk cs)

/-- Python str.strip() on a character list: drop whitespace on both ends. -/
def pyStrip (cs : List Char) : List Char :=
  ((cs.dropWhile isPySpace).reverse.dropWhile isPySpace).reverse

/-- Decimal digit test. -/
def isDigitChar (c : Char) : Bool := '0' ≤ c ∧ c ≤ '9'

/-- Value of a digit string (most significant first). -/
def digitsVal (cs : List Char) : Nat :=
  cs.foldl (fun a c => a * 10 + (c.toNat - '0'.toNat)) 0

/-- Leading sign of a numeric literal: sign multiplier and the rest. -/
def splitSign : List Char → Int × List Char
  | '+' :: rest => (1, rest)
  | '-' :: rest => (-1, rest)
  | cs => (1, cs)

/-- Unsigned decimal mantissa: digits with an optional decimal point, at
least one digit overall.  Returns the digit value with the decimal point
removed, together with the number of fractional digits, so the exact value
is the first component divided by ten to the second. -/
def parseMantissa (cs : List Char) : Option (Nat × Nat) :=
  match splitChars (fun c => c = '.') [] cs with
  | [ip] =>
      if ip ≠ [] ∧ ip.all isDigitChar then some (digitsVal ip, 0) else none
  | [ip, fp] =>
      if (ip ≠ [] ∨ fp ≠ []) ∧ ip.all isDigitChar ∧ fp.all isDigitChar then
        some (digitsVal (ip ++ fp), fp.length)
      else none
  | _ => none

/-- The Python float(str) constructor on the decimal fragment relevant to
KML coordinates: optional surrounding whitespace, optional sign, digits
with optional decimal point, optional e/E exponent with optional sign.
The exact rational value is assembled with a single integer division.
Returns none where float() raises ValueError.  (Special spellings such as
inf/nan and digit underscores have no exact rational meaning and do not
occur in coordinate data; they are outside this model.) -/
def parseFloat (s : String) : Option ℚ :=
  let cs0 := pyStrip s.toList
  let sgnRest := splitSign cs0
  match splitChars (fun c => c = 'e') []
      (sgnRest.2.map (fun c => if c = 'E' then 'e' else c)) with
  | [m] =>
      (parseMantissa m).map (fun mf =>
        Rat.divInt (sgnRest.1 * (mf.1 : Int)) ((10 ^ mf.2 : Nat) : Int))
  | [m, ex] =>
      match parseMantissa m with
      | none => none
      | some mf =>
          let esgnRest := splitSign ex
          if esgnRest.2 ≠ [] ∧ esgnRest.2.all isDigitChar then
            let e := digitsVal esgnRest.2
            some (if esgnRest.1 = 1 then
              Rat.divInt (sgnRest.1 * (mf.1 : Int) * ((10 ^ e : Nat) : Int))
                ((10 ^ mf.2 : Nat) : Int)
            else
              Rat.divInt (sgnRest.1 * (mf.1 : Int)) ((10 ^ (mf.2 + e) : Nat) : Int))
          else none
  | _ => none

/-- One iteration of the coordinate loop: split the row on commas, require
exactly three fields, convert each to float in lon, lat, alt order.  A bad
field count or an unconvertible field raises ValueError. -/
def parseRow (row : String) : Except PyError TrackPoint :=
  match splitComma row with
  | [s0, s1, s2] =>
      match parseFloat s0 with
      | none => .error (.valueError ("could not convert string to float: " ++ s0))
      | some lon =>
          match parseFloat s1 with
          | none => .error (.valueError ("could not convert string to float: " ++ s1))
          | some lat =>
              match parseFloat s2 with
              | none => .error (.valueError ("could not convert string to float: " ++ s2))
              | some alt =>
                  .ok { longitude := lon, latitude := lat, altitude := alt, time := none }
  | _ => .error (.valueError ("Not a lon,lat,alt row: " ++ row))

/-- The coordinate loop of KmlParser.get_coordinates: build one TrackPoint
per token in order, aborting at the first bad token (Python raises out of
the loop, discarding the partial list). -/
def parseRows : List String → Except PyError (List TrackPoint)
  | [] => .ok []
  | row :: rest =>
      match parseRow row with
      | .error e => .error e
      | .ok p =>
          match parseRows rest with
          | .error e => .error e
          | .ok ps => .ok (p :: ps)

/-- Placemark scan of get_coordinates: first placemark whose name text
equals the layer name (findtext returns none for a missing name element,
which never equals a string). -/
def findPlacemark (pms : List Placemark) (layer : String) : Option Placemark :=
  pms.find? (fun pm => pm.name == some layer)

/-- Tail of get_coordinates once a placemark is selected: altitude-mode
check, coordinates-node check, then the token loop.  A present coordinates
node with text None makes Python call None.split, an AttributeError. -/
def readPlacemarkCoords (layer : String) (pm : Placemark) :
    Except PyError (List TrackPoint) :=
  if pm.altitudeMode ≠ some "absolute" then
    .error (.valueError "Altitude mode is not absolute")
  else
    match pm.coordinatesNode with
    | none => .error (.valueError ("No nodes found in layer " ++ layer))
    | some none => .error (.attributeError "NoneType object has no attribute split")
    | some (some text) => parseRows (splitWs text)

/-- KmlParser.get_coordinates on a loaded root: select the placemark, else
KeyError on the layer name, then read its coordinates. -/
def getCoordinates (root : KmlRoot) (layer : String) :
    Except PyError (List TrackPoint) :=
  match findPlacemark root.placemarks layer with
  | none => .error (.keyError layer)
  | some pm => readPlacemarkCoords layer pm

/-- Python duration / int: ZeroDivisionError on a zero divisor, otherwise
exact rational division. -/
def pyDivByNat (a : ℚ) (n : Nat) : Except PyError ℚ :=
  if n = 0 then .error .zeroDivisionError else .ok (a / (n : ℚ))

/-- The accumulation loop of set_times: assign the running time to each
point, then advance it by delta. -/
def assignTimes (delta : ℚ) : ℚ → List TrackPoint → List TrackPoint
  | _, [] => []
  | t, c :: rest => { c with time := some t } :: assignTimes delta (t + delta) rest

/-- set_times from main.py / KmlInputHandler.set_times: delta is the
interval divided by the number of points (computed before the loop, so an
empty list raises ZeroDivisionError), then times are assigned cumulatively
starting from start_time. -/
def setTimes (coords : List TrackPoint) (start_time end_time : ℚ) :
    Except PyError (List TrackPoint) :=
  match pyDivByNat (end_time - start_time) coords.length with
  | .error e => .error e
  | .ok delta => .ok (assignTimes delta start_time coords)

/-- The per-file loop of load_from_files / KmlInputHandler.to_gpx over the
zipped (file, start, end) triples: load the parsed root, extract the
coordinates of the layer, interpolate times only when both bounds are
present, and append the segment; the first raised error aborts the whole
run with no partial track. -/
def buildSegments (layer : String) :
    List (KmlRoot × Option ℚ × Option ℚ) →
    Except PyError (List (List TrackPoint))
  | [] => .ok []
  | (f, st, et) :: rest =>
      match loadRoot f with
      | .error e => .error e
      | .ok root =>
          match getCoordinates root layer with
          | .error e => .error e
          | .ok coords =>
              match (match st, et with
                     | some s, some e2 => setTimes coords s e2
                     | _, _ => .ok coords) with
              | .error e => .error e
              | .ok seg =>
                  match buildSegments layer rest with
                  | .error e => .error e
                  | .ok segs => .ok (seg :: segs)

/-- load_from_files from main.py: length validation on the parallel time
lists before touching any file, layer check, then the per-file loop.  The
result is the segment list of the produced GPX track (each TrackPoint maps
1:1 to a GPX point during serialization). -/
def loadFromFiles (in_files : List KmlRoot)
    (start_times end_times : List (Option ℚ)) (layer : String) :
    Except PyError (List (List TrackPoint)) :=
  if start_times.length ≠ in_files.length ∨ end_times.length ≠ in_files.length then
    .error (.valueError "Invalid number of start/end times.")
  else if layer = "" then
    .error (.valueError "No KML layer given.")
  else
    buildSegments layer (in_files.zip (start_times.zip end_times))

/-- KmlInputHandler.check_arguments from kml.py, with file existence as a
Boolean predicate and ISO datetime parsing kept opaque (the parsed time
lists are returned as the raw strings wrapped in some, or a none per file
when no times were given).  The second time-count test reproduces the
duplicated conjunct of the source verbatim: both sides of the conjunction
compare the start-time count with the file count. -/
def checkArguments (fileExists : String → Bool) (layer : String)
    (in_files : List String) (raw_start raw_end : List String) :
    Except PyError (List (Option String) × List (Option String)) :=
  if layer = "" then .error (.valueError "No KML layer given.")
  else if in_files = [] then .error (.valueError "No input file given.")
  else
    match in_files.find? (fun f => !(fileExists f)) with
    | some f => .error (.valueError ("File not found: " ++ f))
    | none =>
        if raw_start.length ≠ raw_end.length then
          .error (.valueError "There must be the same number of start and end times")
        else if raw_start.length ≠ in_files.length ∧
            raw_start.length ≠ in_files.length then
          .error (.valueError "There must be as many start times as input files")
        else if raw_start = [] then
          .ok (in_files.map (fun _ => none), in_files.map (fun _ => none))
        else
          .ok (raw_start.map some, raw_end.map some)

/-- The validation block of main() in main.py, after argument parsing:
returns some exit code 1 at the first failed check (the source prints a
message and returns 1), none when validation passes and the conversion
proceeds.  File existence checks are stat calls, not file opens. -/
def mainCheckArgs (fileExists : String → Bool)
    (in_files : List String) (raw_start raw_end : List String) : Option Nat :=
  if in_files = [] then some 1
  else if in_files.any (fun f => !(fileExists f)) then some 1
  else if raw_start.length ≠ raw_end.length then some 1
  else if raw_start.length ≠ 0 ∧ in_files.length ≠ raw_start.length then some 1
  else none

/-- Classification of a result as a FormatError in the error taxonomy of
the spec: the TypeError and ValueError kinds raised by KML parsing. -/
def isFormatError {α : Type} : Except PyError α → Bool
  | .error (.typeError _) => true
  | .error (.valueError _) => true
  | _ => false

/-- Demonstration input for the interpolation claim: four points, start 0
seconds, end 240 seconds, giving delta 60 and times 0, 60, 120, 180. -/
def demoFour : List TrackPoint :=
  [⟨1, 1, 1, none⟩, ⟨2, 2, 2, none⟩, ⟨3, 3, 3, none⟩, ⟨4, 4, 4, none⟩]

/-- The interpolated result of the demonstration input. -/
def demoFourTimed : List TrackPoint :=
  [⟨1, 1, 1, some 0⟩, ⟨2, 2, 2, some 60⟩, ⟨3, 3, 3, some 120⟩,
    ⟨4, 4, 4, some 180⟩]

/-- A root element with no namespace declaration at all: nsmap is empty. -/
def docNoNamespace : KmlRoot := ⟨none, [], []⟩

/-- A root element with a default namespace other than KML 2.2. -/
def docWrongNamespace : KmlRoot :=
  ⟨none, [(none, "http://www.topografix.com/GPX/1/1")], []⟩

/-- A well-formed KML 2.2 root carrying one Altitude placemark in absolute
mode with two coordinate tokens (the concrete scenario of the spec). -/
def docGood : KmlRoot :=
  ⟨none, [(none, KML_NS)],
    [⟨some "Altitude", some "absolute", some (some "1.0,2.0,3.0 4.0,5.0,6.0")⟩]⟩

/-- A KML 2.2 root whose Altitude placemark has a coordinates node holding
only whitespace, hence zero coordinate tokens. -/
def docEmptyCoords : KmlRoot :=
  ⟨none, [(none, KML_NS)],
    [⟨some "Altitude", some "absolute", some (some " ")⟩]⟩

/-- A KML 2.2 root whose Altitude placemark has no coordinates node. -/
def docNoCoordsNode : KmlRoot :=
  ⟨none, [(none, KML_NS)], [⟨some "Altitude", some "absolute", none⟩]⟩

/-- A KML 2.2 root with a decoy placemark before the Altitude one, and a
second Altitude placemark after it that must not be selected. -/
def docTwoPlacemarks : KmlRoot :=
  ⟨none, [(none, KML_NS)],
    [⟨some "Other", some "absolute", some (some "9,9,9")⟩,
      ⟨some "Altitude", some "absolute", some (some "1,2,3")⟩,
      ⟨some "Altitude", some "clampToGround", some (some "7,7,7")⟩]⟩

/-- A KML 2.2 root whose Altitude placemark is in clampToGround mode. -/
def docClamped : KmlRoot :=
  ⟨none, [(none, KML_NS)],
    [⟨some "Altitude", some "clampToGround", some (some "1,2,3")⟩]⟩

/-- A KML 2.2 root with a second layer holding a single coordinate token,
used as the second input file of the assembly witness. -/
def docSecond : KmlRoot :=
  ⟨none, [(none, KML_NS)],
    [⟨some "Altitude", some "absolute", some (some "7,8,9")⟩]⟩

/-! ### Supporting lemmas -/

/-- Time assignment preserves the number of points. -/
theorem assignTimes_length (d : ℚ) (t : ℚ) (cs : List TrackPoint) :
    (assignTimes d t cs).length = cs.length := by
  induction cs generalizing t with
  | nil => rfl
  | cons c rest ih => simp [assignTimes, ih]

/-- Closed form of the accumulation loop of set_times: the point at index i
keeps its coordinates and receives the time t + i * d. -/
theorem assignTimes_get (d : ℚ) (cs : List TrackPoint) :
    ∀ (t : ℚ) (i : Nat) (hi : i < (assignTimes d t cs).length)
      (hi2 : i < cs.length),
      (assignTimes d t cs).get ⟨i, hi⟩ =
        { cs.get ⟨i, hi2⟩ with time := some (t + (i : ℚ) * d) } := by
  induction cs with
  | nil => intro t i hi hi2; exact absurd hi2 (by simp)
  | cons c rest ih =>
      intro t i hi hi2
      cases i with
      | zero => simp [assignTimes]
      | succ n =>
          have hn : n < (assignTimes d (t + d) rest).length := by
            simpa [assignTimes] using hi
          have hn2 : n < rest.length := by simpa using hi2
          have := ih (t + d) n hn hn2
          simp only [assignTimes, List.get_cons_succ]
          rw [this]
          push_cast
          ring_nf

/-! ### Claims C10 and C1: the time interpolator -/

/-- C10: set_times divides the interval duration by len(points) with no
guard, so calling it on an empty point list raises ZeroDivisionError for
any pair of start and end times, not a documented error kind or a no-op. -/
theorem C10_set_times_empty_raises_zero_division (s e2 : ℚ) :
    setTimes [] s e2 = .error .zeroDivisionError := rfl

/-- C1 counterexample: with a zero-length interval, which the interpolator
accepts by design, delta is zero and the point at index 0 receives exactly
the end time 0, so the final part of the claim (end_time is never assigned
to any point) is false as universally stated. -/
theorem C1_counterexample_end_time_assigned :
    setTimes [⟨1, 2, 3, none⟩] 0 0 = .ok [⟨1, 2, 3, some 0⟩] := by
  norm_num [setTimes, pyDivByNat, assignTimes]

/-- C1 (amended): for every non-empty point list, set_times assigns
points[i].time = start + i * delta with delta = (end - start) / n, so
points[0].time is exactly the start time and points[n-1].time is one delta
short of the end time; provided the interval is not degenerate
(start ≠ end), the end time is never assigned to any point. -/
theorem C1_interpolation_evenly_spaced (coords : List TrackPoint)
    (s e2 : ℚ) (pts : List TrackPoint) (h : coords ≠ [])
    (hok : setTimes coords s e2 = .ok pts) :
    pts.length = coords.length ∧
    (∀ i (hi : i < pts.length) (hi2 : i < coords.length),
      pts.get ⟨i, hi⟩ = { coords.get ⟨i, hi2⟩ with
        time := some (s + (i : ℚ) * ((e2 - s) / (coords.length : ℚ))) }) ∧
    (s ≠ e2 → ∀ i (hi : i < pts.length), (pts.get ⟨i, hi⟩).time ≠ some e2) := by
  have hn : coords.length ≠ 0 := by
    simpa using (List.length_pos.mpr h).ne'
  have hpts : pts = assignTimes ((e2 - s) / (coords.length : ℚ)) s coords := by
    simp only [setTimes, pyDivByNat, if_neg hn] at hok
    exact (Except.ok.inj hok).symm
  have key : ∀ i (hi : i < pts.length) (hi2 : i < coords.length),
      pts.get ⟨i, hi⟩ = { coords.get ⟨i, hi2⟩ with
        time := some (s + (i : ℚ) * ((e2 - s) / (coords.length : ℚ))) } := by
    intro i hi hi2
    subst hpts
    exact assignTimes_get _ coords s i hi hi2
  refine ⟨by rw [hpts, assignTimes_length], key, ?_⟩
  intro hneq i hi
  have hi2 : i < coords.length := by
    rwa [hpts, assignTimes_length] at hi
  rw [key i hi hi2]
  intro hcontra
  have heq : s + (i : ℚ) * ((e2 - s) / (coords.length : ℚ)) = e2 :=
    Option.some.inj hcontra
  have hcast : ((coords.length : ℚ)) ≠ 0 := Nat.cast_ne_zero.mpr hn
  have hsub : e2 - s ≠ 0 := sub_ne_zero.mpr (Ne.symm hneq)
  have h1 : (i : ℚ) * ((e2 - s) / (coords.length : ℚ)) = e2 - s := by
    linarith
  rw [← mul_div_assoc, div_eq_iff hcast] at h1
  have h2 : (e2 - s) * (i : ℚ) = (e2 - s) * (coords.length : ℚ) := by
    linarith
  have h3 : (i : ℚ) = (coords.length : ℚ) := mul_left_cancel₀ hsub h2
  have h4 : i = coords.length := Nat.cast_inj.mp h3
  omega

/-- Witness for the amended C1 at the concrete demonstration input: the
last point stays one delta short of the end time 240. -/
theorem C1_interpolation_witness :
    demoFourTimed.length = demoFour.length ∧
    (demoFourTimed.get ⟨3, by decide⟩).time ≠ some 240 := by
  have hok : setTimes demoFour 0 240 = .ok demoFourTimed := by
    norm_num [demoFour, demoFourTimed, setTimes, pyDivByNat, assignTimes]
  have hmain := C1_interpolation_evenly_spaced demoFour 0 240 demoFourTimed
    (by decide) hok
  exact ⟨hmain.1, hmain.2.2 (by norm_num) 3 (by decide)⟩

/-! ### Claim C5: the namespace check -/

/-- C5 counterexample: a document with no namespace at all makes the loader
fail with a KeyError from the nsmap dictionary access, not with the
FormatError (TypeError) the claim requires for a missing namespace. -/
theorem C5_counterexample_missing_namespace_keyerror :
    loadRoot docNoNamespace = .error (.keyError "nsmap") ∧
    isFormatError (loadRoot docNoNamespace) = false := by decide

/-- C5 (amended): when the root carries a namespace binding, any URI other
than the KML 2.2 namespace fails with a FormatError (TypeError) and exactly
that URI passes the check; when the root has no namespace binding at all,
loading fails with a dictionary KeyError instead of a FormatError. -/
theorem C5_namespace_check (root : KmlRoot) :
    (lookupNs root.nsmap root.pfx = none →
      loadRoot root = .error (.keyError "nsmap")) ∧
    (∀ ns, lookupNs root.nsmap root.pfx = some ns →
      (ns ≠ KML_NS →
        loadRoot root = .error (.typeError "Not a valid/supported KML file")) ∧
      (ns = KML_NS → loadRoot root = .ok root)) := by
  constructor
  · intro hnone
    simp [loadRoot, hnone]
  · intro ns hsome
    constructor
    · intro hne
      simp [loadRoot, hsome, hne]
    · intro heq
      simp [loadRoot, hsome, heq]

/-- Witness for the amended C5 at concrete documents: the KML 2.2 root
loads, the foreign-namespace root is rejected with a TypeError. -/
theorem C5_namespace_check_witness :
    loadRoot docGood = .ok docGood ∧
    loadRoot docWrongNamespace =
      .error (.typeError "Not a valid/supported KML file") := by
  constructor
  · exact ((C5_namespace_check docGood).2 KML_NS (by decide)).2 rfl
  · exact ((C5_namespace_check docWrongNamespace).2
      "http://www.topografix.com/GPX/1/1" (by decide)).1 (by decide)

/-! ### Claim C2: a run with no supplied times -/

/-- C2 (code bug): with one existing input file and no start or end times,
the flat main.py validation accepts the arguments, but
KmlInputHandler.check_arguments in kml.py rejects them: its second count
check duplicates the comparison with the file count instead of first
testing that any times were supplied, so zero supplied times trips the
check whenever at least one file is given, and the no-times branch below
it is unreachable.  The claim (and the spec) describe the accepting
behavior, which the flat variant implements. -/
theorem C2_no_times_rejected_by_handler :
    checkArguments (fun _ => true) "Altitude" ["track.kml"] [] [] =
      .error (.valueError "There must be as many start times as input files") ∧
    mainCheckArgs (fun _ => true) ["track.kml"] [] [] = none := by decide

/-! ### Claims C6, C7, C3: placemark selection and structure checks -/

/-- If no placemark carries the requested name, the scan finds nothing. -/
theorem findPlacemark_eq_none (pms : List Placemark) (layer : String)
    (h : ∀ pm ∈ pms, pm.name ≠ some layer) :
    findPlacemark pms layer = none := by
  apply List.find?_eq_none.mpr
  intro pm hmem
  simp only [beq_iff_eq]
  exact h pm hmem

/-- The scan returns the first placemark with the requested name: earlier
placemarks with other names are skipped and later ones are ignored. -/
theorem findPlacemark_first (pre : List Placemark) (pm : Placemark)
    (post : List Placemark) (layer : String)
    (hpre : ∀ q ∈ pre, q.name ≠ some layer) (hpm : pm.name = some layer) :
    findPlacemark (pre ++ pm :: post) layer = some pm := by
  induction pre with
  | nil =>
      simp only [findPlacemark, List.nil_append]
      rw [List.find?_cons_of_pos]
      simp [hpm]
  | cons q rest ih =>
      have hq : (q.name == some layer) = false := by
        simpa [beq_iff_eq] using hpre q (List.mem_cons_self q rest)
      have ih2 := ih (fun r hr => hpre r (List.mem_cons_of_mem q hr))
      simp only [findPlacemark] at ih2 ⊢
      rw [List.cons_append, List.find?_cons]
      simpa [hq] using ih2

/-- C6: extraction selects the first placemark in document order whose name
text equals the layer name exactly (case-sensitive string equality), and
with no matching placemark it fails with a KeyError naming the requested
layer (the NotFoundError of the spec). -/
theorem C6_placemark_selection (root : KmlRoot) (layer : String) :
    ((∀ pm ∈ root.placemarks, pm.name ≠ some layer) →
      getCoordinates root layer = .error (.keyError layer)) ∧
    (∀ pre pm post, root.placemarks = pre ++ pm :: post →
      (∀ q ∈ pre, q.name ≠ some layer) → pm.name = some layer →
      getCoordinates root layer = readPlacemarkCoords layer pm) := by
  constructor
  · intro h
    simp [getCoordinates, findPlacemark_eq_none root.placemarks layer h]
  · intro pre pm post hsplit hpre hpm
    simp [getCoordinates, hsplit, findPlacemark_first pre pm post layer hpre hpm]

/-- Witness for C6: among a decoy layer, a first Altitude placemark and a
second one, extraction reads exactly the first Altitude placemark; asking
for an absent layer yields the KeyError naming it. -/
theorem C6_placemark_selection_witness :
    getCoordinates docTwoPlacemarks "Altitude" = .ok [⟨1, 2, 3, none⟩] ∧
    getCoordinates docGood "Missing" = .error (.keyError "Missing") := by
  constructor
  · have h := (C6_placemark_selection docTwoPlacemarks "Altitude").2
      [⟨some "Other", some "absolute", some (some "9,9,9")⟩]
      ⟨some "Altitude", some "absolute", some (some "1,2,3")⟩
      [⟨some "Altitude", some "clampToGround", some (some "7,7,7")⟩]
      rfl (by decide) rfl
    rw [h]
    decide
  · exact (C6_placemark_selection docGood "Missing").1 (by decide)

/-- C7: once a placemark is selected, any altitude-mode text other than
exactly absolute (including a missing element, findtext = None) fails with
the ValueError naming the mode, and extraction continues to the
coordinates handling only when the text is exactly absolute. -/
theorem C7_altitude_mode_check (root : KmlRoot) (layer : String)
    (pm : Placemark) (hfind : findPlacemark root.placemarks layer = some pm) :
    (pm.altitudeMode ≠ some "absolute" →
      getCoordinates root layer =
        .error (.valueError "Altitude mode is not absolute")) ∧
    (pm.altitudeMode = some "absolute" →
      getCoordinates root layer =
        match pm.coordinatesNode with
        | none => .error (.valueError ("No nodes found in layer " ++ layer))
        | some none =>
            .error (.attributeError "NoneType object has no attribute split")
        | some (some text) => parseRows (splitWs text)) := by
  constructor
  · intro hmode
    simp [getCoordinates, hfind, readPlacemarkCoords, hmode]
  · intro hmode
    simp [getCoordinates, hfind, readPlacemarkCoords, hmode]

/-- Witness for C7: the clampToGround document is rejected with the
altitude-mode ValueError; the absolute-mode document proceeds past the
check and extracts its two points. -/
theorem C7_altitude_mode_check_witness :
    getCoordinates docClamped "Altitude" =
      .error (.valueError "Altitude mode is not absolute") ∧
    getCoordinates docGood "Altitude" =
      .ok [⟨1, 2, 3, none⟩, ⟨4, 5, 6, none⟩] := by
  constructor
  · exact (C7_altitude_mode_check docClamped "Altitude"
      ⟨some "Altitude", some "clampToGround", some (some "1,2,3")⟩
      (by decide)).1 (by decide)
  · have h := (C7_altitude_mode_check docGood "Altitude"
      ⟨some "Altitude", some "absolute", some (some "1.0,2.0,3.0 4.0,5.0,6.0")⟩
      (by decide)).2 rfl
    rw [h]
    decide

/-- C3 counterexample: a coordinates node holding only whitespace has zero
tokens, yet extraction succeeds and returns the empty point list rather
than failing with a FormatError, so a successful extraction can be empty. -/
theorem C3_counterexample_empty_token_list_ok :
    getCoordinates docEmptyCoords "Altitude" = .ok [] ∧
    isFormatError (getCoordinates docEmptyCoords "Altitude") = false := by
  decide

/-- C3 (amended): with a selected placemark in absolute mode, extraction
fails with a FormatError (ValueError) when the LineString/coordinates node
is absent; when the node is present but its text holds no tokens,
extraction returns the empty point sequence without error. -/
theorem C3_coordinates_node_check (root : KmlRoot) (layer : String)
    (pm : Placemark) (hfind : findPlacemark root.placemarks layer = some pm)
    (hmode : pm.altitudeMode = some "absolute") :
    (pm.coordinatesNode = none →
      getCoordinates root layer =
        .error (.valueError ("No nodes found in layer " ++ layer))) ∧
    (∀ text, pm.coordinatesNode = some (some text) → splitWs text = [] →
      getCoordinates root layer = .ok []) := by
  constructor
  · intro hnode
    simp [getCoordinates, hfind, readPlacemarkCoords, hmode, hnode]
  · intro text hnode htok
    simp [getCoordinates, hfind, readPlacemarkCoords, hmode, hnode, htok,
      parseRows]

/-- Witness for the amended C3 at concrete documents: a missing node fails
with the ValueError, a whitespace-only node succeeds with no points. -/
theorem C3_coordinates_node_check_witness :
    getCoordinates docNoCoordsNode "Altitude" =
      .error (.valueError ("No nodes found in layer " ++ "Altitude")) ∧
    getCoordinates docEmptyCoords "Altitude" = .ok [] := by
  constructor
  · exact (C3_coordinates_node_check docNoCoordsNode "Altitude"
      ⟨some "Altitude", some "absolute", none⟩ (by decide) rfl).1 rfl
  · exact (C3_coordinates_node_check docEmptyCoords "Altitude"
      ⟨some "Altitude", some "absolute", some (some " ")⟩ (by decide) rfl).2
      " " rfl (by decide)

/-! ### Claim C8: coordinate token parsing -/

/-- Inversion of a successful row parse: the row splits into exactly three
comma fields, each field converts to a float, and the point is built from
them in longitude, latitude, altitude order with no timestamp. -/
theorem parseRow_ok_shape (row : String) (p : TrackPoint)
    (h : parseRow row = .ok p) :
    ∃ a b c lon lat alt, splitComma row = [a, b, c] ∧
      parseFloat a = some lon ∧ parseFloat b = some lat ∧
      parseFloat c = some alt ∧ p = ⟨lon, lat, alt, none⟩ := by
  unfold parseRow at h
  split at h
  case h_2 => cases h
  case h_1 s0 s1 s2 heq =>
    cases hf0 : parseFloat s0 with
    | none => rw [hf0] at h; cases h
    | some lon =>
        rw [hf0] at h
        cases hf1 : parseFloat s1 with
        | none => rw [hf1] at h; cases h
        | some lat =>
            rw [hf1] at h
            cases hf2 : parseFloat s2 with
            | none => rw [hf2] at h; cases h
            | some alt =>
                rw [hf2] at h
                exact ⟨s0, s1, s2, lon, lat, alt, heq, hf0, hf1, hf2,
                  (Except.ok.inj h).symm⟩

/-- A row with a field count other than three, or with an unconvertible
field, never parses successfully. -/
theorem parseRow_error_of_bad (row : String)
    (hbad : (splitComma row).length ≠ 3 ∨
      ∃ f ∈ splitComma row, parseFloat f = none) :
    ∀ p, parseRow row ≠ .ok p := by
  intro p hok
  obtain ⟨a, b, c, lon, lat, alt, hsc, hfa, hfb, hfc, _⟩ :=
    parseRow_ok_shape row p hok
  rcases hbad with hlen | ⟨f, hmem, hf⟩
  · exact hlen (by rw [hsc]; rfl)
  · rw [hsc] at hmem
    simp only [List.mem_cons, List.not_mem_nil, or_false] at hmem
    rcases hmem with rfl | rfl | rfl
    · rw [hfa] at hf; cases hf
    · rw [hfb] at hf; cases hf
    · rw [hfc] at hf; cases hf

/-- Inversion of a successful run of the coordinate loop: one point per
token, and the point at index i comes from the token at index i. -/
theorem parseRows_ok (toks : List String) :
    ∀ (pts : List TrackPoint), parseRows toks = .ok pts →
      pts.length = toks.length ∧
      ∀ i (hi : i < pts.length) (hi2 : i < toks.length),
        parseRow (toks.get ⟨i, hi2⟩) = .ok (pts.get ⟨i, hi⟩) := by
  induction toks with
  | nil =>
      intro pts h
      simp only [parseRows] at h
      have : pts = [] := (Except.ok.inj h).symm
      subst this
      exact ⟨rfl, fun i hi hi2 => absurd hi2 (by simp)⟩
  | cons t rest ih =>
      intro pts h
      cases hR : parseRow t with
      | error e => simp only [parseRows, hR] at h; cases h
      | ok p =>
          cases hRs : parseRows rest with
          | error e => simp only [parseRows, hR, hRs] at h; cases h
          | ok ps =>
              simp only [parseRows, hR, hRs] at h
              have hpts : pts = p :: ps := (Except.ok.inj h).symm
              subst hpts
              obtain ⟨hlen, hget⟩ := ih ps hRs
              refine ⟨by simp [hlen], ?_⟩
              intro i hi hi2
              cases i with
              | zero => simpa using hR
              | succ n =>
                  have hn : n < ps.length := by simpa using hi
                  have hn2 : n < rest.length := by simpa using hi2
                  simpa using hget n hn hn2

/-- One bad token anywhere in the list aborts the whole coordinate loop
with an error (fail-fast, no partial results). -/
theorem parseRows_error_of_mem (toks : List String) (tok : String)
    (hmem : tok ∈ toks) (hbad : ∀ p, parseRow tok ≠ .ok p) :
    ∃ e, parseRows toks = .error e := by
  induction toks with
  | nil => cases hmem
  | cons t rest ih =>
      cases hR : parseRow t with
      | error e => exact ⟨e, by simp [parseRows, hR]⟩
      | ok p =>
          rcases List.mem_cons.mp hmem with rfl | hmem2
          · exact absurd hR (hbad p)
          · obtain ⟨e, he⟩ := ih hmem2
            exact ⟨e, by simp [parseRows, hR, he]⟩

/-- C8: the coordinates text is split on whitespace into tokens; a
successful extraction emits exactly one TrackPoint per token, in token
order, whose longitude, latitude and altitude are the floats of the three
comma fields of that token in this order, with the timestamp unset; and
any token whose field count differs from three or with an unconvertible
field makes the whole extraction fail (no partial results). -/
theorem C8_token_parsing (text : String) :
    (∀ pts, parseRows (splitWs text) = .ok pts →
      pts.length = (splitWs text).length ∧
      ∀ i (hi : i < pts.length) (hi2 : i < (splitWs text).length),
        (splitComma ((splitWs text).get ⟨i, hi2⟩)).length = 3 ∧
        ((splitComma ((splitWs text).get ⟨i, hi2⟩))[0]?.bind parseFloat) =
          some ((pts.get ⟨i, hi⟩).longitude) ∧
        ((splitComma ((splitWs text).get ⟨i, hi2⟩))[1]?.bind parseFloat) =
          some ((pts.get ⟨i, hi⟩).latitude) ∧
        ((splitComma ((splitWs text).get ⟨i, hi2⟩))[2]?.bind parseFloat) =
          some ((pts.get ⟨i, hi⟩).altitude) ∧
        (pts.get ⟨i, hi⟩).time = none) ∧
    (∀ tok ∈ splitWs text,
      ((splitComma tok).length ≠ 3 ∨ ∃ f ∈ splitComma tok, parseFloat f = none) →
      ∃ e, parseRows (splitWs text) = .error e) := by
  constructor
  · intro pts h
    obtain ⟨hlen, hget⟩ := parseRows_ok (splitWs text) pts h
    refine ⟨hlen, ?_⟩
    intro i hi hi2
    obtain ⟨a, b, c, lon, lat, alt, hsc, hfa, hfb, hfc, hp⟩ :=
      parseRow_ok_shape _ _ (hget i hi hi2)
    rw [hsc, hp]
    simp [hfa, hfb, hfc]
  · intro tok hmem hbad
    exact parseRows_error_of_mem _ tok hmem (parseRow_error_of_bad tok hbad)

/-- Witness for C8 at the concrete scenario text of the spec (two valid
tokens) and at a text with a two-field token (whole run fails). -/
theorem C8_token_parsing_witness :
    (splitComma ((splitWs "1.0,2.0,3.0 4.0,5.0,6.0").get ⟨1, by decide⟩)).length = 3 ∧
    ((splitComma ((splitWs "1.0,2.0,3.0 4.0,5.0,6.0").get ⟨1, by decide⟩))[0]?.bind
      parseFloat) =
      some ((([⟨1, 2, 3, none⟩, ⟨4, 5, 6, none⟩] : List TrackPoint).get
        ⟨1, by decide⟩).longitude) ∧
    (parseRows (splitWs "1,2,3 4,5")).isOk = false := by
  have h1 := ((C8_token_parsing "1.0,2.0,3.0 4.0,5.0,6.0").1
    [⟨1, 2, 3, none⟩, ⟨4, 5, 6, none⟩] (by decide)).2 1 (by decide) (by decide)
  obtain ⟨e, he⟩ := (C8_token_parsing "1,2,3 4,5").2 "4,5" (by decide)
    (by decide)
  exact ⟨h1.1, h1.2.1, by rw [he]; rfl⟩

/-! ### Claim C4: time-count validation -/

/-- C4: whenever the start-time count differs from the end-time count, or
times are supplied and their count differs from the file count, the main()
validation stops with exit code 1, load_from_files itself rejects the
parallel lists with the ValueError before examining any file content
(the conclusion holds for every value of the file list), and the
KmlInputHandler argument check also raises a ValueError. -/
theorem C4_time_count_validation (in_files raw_start raw_end : List String)
    (hbad : raw_start.length ≠ raw_end.length ∨
      (raw_start.length ≠ 0 ∧ raw_start.length ≠ in_files.length)) :
    (∀ fe, mainCheckArgs fe in_files raw_start raw_end = some 1) ∧
    (∀ (files : List KmlRoot) (sts ets : List (Option ℚ)) (layer : String),
      sts.length = raw_start.length → ets.length = raw_end.length →
      files.length = in_files.length →
      loadFromFiles files sts ets layer =
        .error (.valueError "Invalid number of start/end times.")) ∧
    (∀ (fe : String → Bool) (layer : String), layer ≠ "" → in_files ≠ [] →
      (∀ f ∈ in_files, fe f = true) →
      ∃ msg, checkArguments fe layer in_files raw_start raw_end =
        .error (.valueError msg)) := by
  refine ⟨?_, ?_, ?_⟩
  · intro fe
    unfold mainCheckArgs
    split_ifs with h1 h2 h3 h4
    any_goals rfl
    exfalso
    omega
  · intro files sts ets layer hs he hf
    have hcond : sts.length ≠ files.length ∨ ets.length ≠ files.length := by
      omega
    unfold loadFromFiles
    rw [if_pos hcond]
  · intro fe layer hlayer hne hex
    have hfind : in_files.find? (fun f => !(fe f)) = none :=
      List.find?_eq_none.mpr (fun x hx => by simp [hex x hx])
    simp only [checkArguments, hlayer, hne, hfind]
    by_cases hc : raw_start.length ≠ raw_end.length
    · refine ⟨"There must be the same number of start and end times", ?_⟩
      simp [hc, hlayer, hne]
    · have hc2 : raw_start.length ≠ in_files.length := by omega
      refine ⟨"There must be as many start times as input files", ?_⟩
      simp [hc, hc2, hlayer, hne]

/-- Witness for C4 at a concrete run: one input file, one start time and no
end time fail all three validation layers. -/
theorem C4_time_count_validation_witness :
    mainCheckArgs (fun _ => true) ["a.kml"] ["2024-01-01T10:00:00"] [] =
      some 1 ∧
    loadFromFiles [docGood] [some 0] [] "Altitude" =
      .error (.valueError "Invalid number of start/end times.") ∧
    (checkArguments (fun _ => true) "Altitude" ["a.kml"]
      ["2024-01-01T10:00:00"] []).isOk = false := by
  have h := C4_time_count_validation ["a.kml"] ["2024-01-01T10:00:00"] []
    (by simp)
  refine ⟨h.1 (fun _ => true),
    h.2.1 [docGood] [some 0] [] "Altitude" rfl rfl rfl, ?_⟩
  obtain ⟨msg, hmsg⟩ := h.2.2 (fun _ => true) "Altitude" (by decide)
    (by decide) (by simp)
  rw [hmsg]
  rfl

/-! ### Claim C9: track assembly -/

/-- A successful set_times returns as many points as it was given. -/
theorem setTimes_ok_length (coords : List TrackPoint) (s e2 : ℚ)
    (pts : List TrackPoint) (h : setTimes coords s e2 = .ok pts) :
    pts.length = coords.length := by
  by_cases hn : coords.length = 0
  · simp [setTimes, pyDivByNat, hn] at h
  · simp only [setTimes, pyDivByNat, if_neg hn] at h
    rw [← Except.ok.inj h, assignTimes_length]

/-- A successful extraction run emits one point per whitespace token of
the coordinates text of the selected placemark. -/
theorem getCoordinates_ok_token_count (root : KmlRoot) (layer : String)
    (coords : List TrackPoint) (pm : Placemark) (text : String)
    (h : getCoordinates root layer = .ok coords)
    (hf : findPlacemark root.placemarks layer = some pm)
    (ht : pm.coordinatesNode = some (some text)) :
    coords.length = (splitWs text).length := by
  simp only [getCoordinates, hf, readPlacemarkCoords] at h
  by_cases hmode : pm.altitudeMode ≠ some "absolute"
  · rw [if_pos hmode] at h; cases h
  · rw [if_neg hmode, ht] at h
    exact (parseRows_ok _ _ h).1

/-- Inversion of a successful run of the per-file assembly loop: one
segment per triple, in order; each segment comes from loading its own
file, extracting the layer, and interpolating exactly when both time
bounds of that same triple are present. -/
theorem buildSegments_ok (layer : String) :
    ∀ (trips : List (KmlRoot × Option ℚ × Option ℚ))
      (segs : List (List TrackPoint)),
      buildSegments layer trips = .ok segs →
      segs.length = trips.length ∧
      ∀ i (hi : i < trips.length) (hs : i < segs.length),
        ∃ root coords,
          loadRoot (trips.get ⟨i, hi⟩).1 = .ok root ∧
          getCoordinates root layer = .ok coords ∧
          (segs.get ⟨i, hs⟩).length = coords.length ∧
          (∀ s e2, (trips.get ⟨i, hi⟩).2.1 = some s →
            (trips.get ⟨i, hi⟩).2.2 = some e2 →
            setTimes coords s e2 = .ok (segs.get ⟨i, hs⟩)) ∧
          (((trips.get ⟨i, hi⟩).2.1 = none ∨ (trips.get ⟨i, hi⟩).2.2 = none) →
            segs.get ⟨i, hs⟩ = coords) := by
  intro trips
  induction trips with
  | nil =>
      intro segs h
      simp only [buildSegments] at h
      have hsegs : segs = [] := (Except.ok.inj h).symm
      subst hsegs
      exact ⟨rfl, fun i hi _ => absurd hi (by simp)⟩
  | cons trip rest ih =>
      obtain ⟨f, st, et⟩ := trip
      intro segs h
      cases hL : loadRoot f with
      | error e => simp only [buildSegments, hL] at h; cases h
      | ok root =>
      cases hG : getCoordinates root layer with
      | error e => simp only [buildSegments, hL, hG] at h; cases h
      | ok coords =>
      cases hT : (match st, et with
          | some s, some e2 => setTimes coords s e2
          | _, _ => .ok coords) with
      | error e =>
          simp only [buildSegments, hL, hG] at h
          rw [hT] at h; cases h
      | ok seg =>
      cases hB : buildSegments layer rest with
      | error e =>
          simp only [buildSegments, hL, hG] at h
          rw [hT, hB] at h; cases h
      | ok segs2 =>
          simp only [buildSegments, hL, hG] at h
          rw [hT, hB] at h
          have hsegs : segs = seg :: segs2 := (Except.ok.inj h).symm
          subst hsegs
          obtain ⟨hlen, hrest⟩ := ih segs2 hB
          refine ⟨by simp [hlen], ?_⟩
          intro i hi hs
          cases i with
          | zero =>
              refine ⟨root, coords, hL, hG, ?_, ?_, ?_⟩
              · cases st with
                | none =>
                    have hcs : coords = seg := Except.ok.inj hT
                    simp [List.get, ← hcs]
                | some s =>
                    cases et with
                    | none =>
                        have hcs : coords = seg := Except.ok.inj hT
                        simp [List.get, ← hcs]
                    | some e2 =>
                        simpa [List.get] using
                          setTimes_ok_length coords s e2 seg hT
              · intro s e2 hst het
                simp only [List.get] at hst het ⊢
                cases st with
                | none => cases hst
                | some s0 =>
                    cases et with
                    | none => cases het
                    | some e0 =>
                        have hs0 : s0 = s := Option.some.inj hst
                        have he0 : e0 = e2 := Option.some.inj het
                        subst hs0; subst he0
                        exact hT
              · intro hnone
                simp only [List.get] at hnone ⊢
                cases st with
                | none => simpa using (Except.ok.inj hT).symm
                | some s0 =>
                    cases et with
                    | none => simpa using (Except.ok.inj hT).symm
                    | some e0 =>
                        rcases hnone with hc | hc <;> cases hc
          | succ n =>
              have hn : n < rest.length := by simpa using hi
              have hn2 : n < segs2.length := by simpa using hs
              simpa using hrest n hn hn2

/-- C9: a successful assembly over k validated input files produces exactly
k segments in input order; segment i is obtained by loading file i,
extracting the shared layer (one point per coordinate token of that file),
and interpolating exactly when both the start and end time of file i are
present; interpolation never involves another file, since segment i is
fully determined by file i and its own time pair. -/
theorem C9_assembly_structure (in_files : List KmlRoot)
    (sts ets : List (Option ℚ)) (layer : String)
    (segs : List (List TrackPoint))
    (h : loadFromFiles in_files sts ets layer = .ok segs) :
    segs.length = in_files.length ∧
    sts.length = in_files.length ∧ ets.length = in_files.length ∧
    ∀ i (hf2 : i < in_files.length) (hs : i < segs.length)
      (hst : i < sts.length) (het : i < ets.length),
      ∃ root coords,
        loadRoot (in_files.get ⟨i, hf2⟩) = .ok root ∧
        getCoordinates root layer = .ok coords ∧
        (segs.get ⟨i, hs⟩).length = coords.length ∧
        (∀ pm text, findPlacemark root.placemarks layer = some pm →
          pm.coordinatesNode = some (some text) →
          coords.length = (splitWs text).length) ∧
        (∀ s e2, sts.get ⟨i, hst⟩ = some s → ets.get ⟨i, het⟩ = some e2 →
          setTimes coords s e2 = .ok (segs.get ⟨i, hs⟩)) ∧
        ((sts.get ⟨i, hst⟩ = none ∨ ets.get ⟨i, het⟩ = none) →
          segs.get ⟨i, hs⟩ = coords) := by
  unfold loadFromFiles at h
  by_cases hlen : sts.length ≠ in_files.length ∨ ets.length ≠ in_files.length
  · rw [if_pos hlen] at h; cases h
  · rw [if_neg hlen] at h
    push_neg at hlen
    obtain ⟨hst_len, het_len⟩ := hlen
    by_cases hlay : layer = ""
    · rw [if_pos hlay] at h; cases h
    · rw [if_neg hlay] at h
      obtain ⟨hslen, hidx⟩ := buildSegments_ok layer _ segs h
      have hziplen : (in_files.zip (sts.zip ets)).length = in_files.length := by
        simp [List.length_zip, hst_len, het_len]
      refine ⟨by rw [hslen, hziplen], hst_len, het_len, ?_⟩
      intro i hf2 hs hst het
      have hi : i < (in_files.zip (sts.zip ets)).length := by
        rw [hziplen]; exact hf2
      obtain ⟨root, coords, hL, hG, hlen2, htime, hnone⟩ := hidx i hi hs
      have hgetzip : (in_files.zip (sts.zip ets)).get ⟨i, hi⟩ =
          (in_files.get ⟨i, hf2⟩, (sts.get ⟨i, hst⟩, ets.get ⟨i, het⟩)) := by
        simp [List.get_eq_getElem, List.getElem_zip]
      rw [hgetzip] at hL htime hnone
      refine ⟨root, coords, hL, hG, hlen2, ?_, htime, hnone⟩
      intro pm text hpm htext
      exact getCoordinates_ok_token_count root layer coords pm text hG hpm htext

/-- Witness for C9 at a concrete two-file run: the first file carries a
time pair and gets interpolated times 0 and 2, the second has none and
keeps unset timestamps; two files give two segments in order. -/
theorem C9_assembly_structure_witness :
    loadFromFiles [docGood, docSecond] [some 0, none] [some 4, none]
      "Altitude" =
      .ok [[⟨1, 2, 3, some 0⟩, ⟨4, 5, 6, some 2⟩], [⟨7, 8, 9, none⟩]] ∧
    ([[⟨1, 2, 3, some 0⟩, ⟨4, 5, 6, some 2⟩], [⟨7, 8, 9, none⟩]] :
      List (List TrackPoint)).length = 2 ∧
    (([[⟨1, 2, 3, some 0⟩, ⟨4, 5, 6, some 2⟩], [⟨7, 8, 9, none⟩]] :
      List (List TrackPoint)).get ⟨1, by decide⟩) = [⟨7, 8, 9, none⟩] := by
  have h1 : loadRoot docGood = .ok docGood := by decide
  have h2 : getCoordinates docGood "Altitude" =
      .ok [⟨1, 2, 3, none⟩, ⟨4, 5, 6, none⟩] := by decide
  have h3 : loadRoot docSecond = .ok docSecond := by decide
  have h4 : getCoordinates docSecond "Altitude" = .ok [⟨7, 8, 9, none⟩] := by
    decide
  have hset : setTimes [⟨1, 2, 3, none⟩, ⟨4, 5, 6, none⟩] 0 4 =
      .ok [⟨1, 2, 3, some 0⟩, ⟨4, 5, 6, some 2⟩] := by
    norm_num [setTimes, pyDivByNat, assignTimes]
  have hok : loadFromFiles [docGood, docSecond] [some 0, none] [some 4, none]
      "Altitude" =
      .ok [[⟨1, 2, 3, some 0⟩, ⟨4, 5, 6, some 2⟩], [⟨7, 8, 9, none⟩]] := by
    simp [loadFromFiles, buildSegments, h1, h2, h3, h4, hset]
  obtain ⟨hlen, hstl, hetl, hidx⟩ := C9_assembly_structure
    [docGood, docSecond] [some 0, none] [some 4, none] "Altitude"
    [[⟨1, 2, 3, some 0⟩, ⟨4, 5, 6, some 2⟩], [⟨7, 8, 9, none⟩]] hok
  obtain ⟨root, coords, hL, hG, hlen2, htok, htime, hnone⟩ :=
    hidx 1 (by decide) (by decide) (by decide) (by decide)
  have hroot : root = docSecond := by
    have hL2 : loadRoot docSecond = .ok root := hL
    exact (Except.ok.inj (h3.symm.trans hL2)).symm
  subst hroot
  have hcoords : coords = [⟨7, 8, 9, none⟩] :=
    (Except.ok.inj (h4.symm.trans hG)).symm
  subst hcoords
  exact ⟨hok, by simp, hnone (Or.inl rfl)⟩
